import Mathlib

/-!
Shallow embedding of the Generic Resource Routing Engine of the
luxas/digitized repository (package `pkg/rest` together with the identity
helpers of `pkg/apis/meta`).  Go source functions are translated one-to-one
into executable Lean definitions; theorems about the spec's claims follow
after all definitions.

Modelling conventions:
* Go strings are `String`; raw byte payloads are also modelled as `String`.
* A Go interface value is modelled by a record carrying the data the code
  can reach through type assertions.  A capability interface that an object
  may or may not implement (`meta.Singleton`, `meta.Namespaced`,
  `meta.Validatable`) becomes an `Option` field: `none` means the object
  does not implement the interface.
* The external Object Store (libgitops `storage.Storage`) is modelled as an
  association list from `ObjectKey` to stored objects, with the error kinds
  (`NotFound`, `AlreadyExists`) the spec names for it.
* The external Codec is not modelled; handler operations take the decode
  result as a parameter, exactly the value the Go code receives from it.
-/

namespace Digitized

/-- `GroupVersionKindResource` (pkg/rest, part_003): the static per-kind
descriptor.  `nspace` models the Go field `Namespaced` paired with
`Singleton`; the Go field `.metadata.namespace` of objects is likewise
rendered `nspace` because `namespace` is a Lean keyword. -/
structure GroupVersionKindResource where
  group : String
  version : String
  kind : String
  resource : String
  namespaced : Bool
  singleton : Bool
deriving DecidableEq, Repr

/-- `storage.KindKey`: the group/version/kind triple used to address a kind. -/
structure KindKey where
  group : String
  version : String
  kind : String
deriving DecidableEq, Repr

/-- `GroupVersionKindResource.GVK()` followed by `storage.NewKindKey`:
the kind key of a descriptor. -/
def kindKey (gvkr : GroupVersionKindResource) : KindKey :=
  ⟨gvkr.group, gvkr.version, gvkr.kind⟩

/-- `storage.ObjectKey`: a kind key plus the opaque string identifier
computed by the identity resolver (`runtime.Identifyable` is a string). -/
structure ObjectKey where
  kind : KindKey
  identifier : String
deriving DecidableEq, Repr

/-- A decoded object as the routing engine sees it: `metav1.Object` identity
fields plus the optional capability interfaces of `pkg/apis/meta`.
`singleton`/`namespaced` are `none` when the object does not implement
`meta.Singleton`/`meta.Namespaced`, otherwise `some` of the method's result.
`validateErr` is the result of `Validate()` collapsed with the
not-`Validatable` case: `none` when no validation error is raised. -/
structure MetaObject where
  name : String
  nspace : String
  singleton : Option Bool := none
  namespaced : Option Bool := none
  validateErr : Option String := none
deriving DecidableEq, Repr

/-- `meta.IsSingleton`: the object implements `Singleton` and reports true. -/
def IsSingleton (o : MetaObject) : Bool :=
  o.singleton = some true

/-- `meta.IsNamespaced`: the object implements `Namespaced` and reports true. -/
def IsNamespaced (o : MetaObject) : Bool :=
  o.namespaced = some true

/-- `meta.ValidateIfPossible`: run `Validate()` when the object implements
`Validatable`, otherwise no error. -/
def ValidateIfPossible (o : MetaObject) : Option String :=
  o.validateErr

/-- `meta.SingletonIdentifierKey`, the reserved singleton identifier. -/
def SingletonIdentifierKey : String := "singleton"

/-- `meta.NameIdentifier`: cluster-scoped identifier, the bare name. -/
def NameIdentifier (name : String) : String := name

/-- `meta.NameNamespaceIdentifier`: dash-joined namespace and name,
`fmt.Sprintf("%s-%s", ns, name)`. -/
def NameNamespaceIdentifier (ns name : String) : String :=
  ns ++ "-" ++ name

/-- `meta.SingletonIdentifier()`. -/
def SingletonIdentifier : String := SingletonIdentifierKey

/-- `meta.SingletonKey`: the object key addressing a singleton kind. -/
def SingletonKey (kind : KindKey) : ObjectKey :=
  ⟨kind, SingletonIdentifier⟩

/-- `meta.Metav1NameIdentifierFactory.Identify`: the identity resolver.
Returns `none` exactly where the Go code returns `(nil, false)`.  Every
object the engine handles is a `metav1.Object`, so the non-`metav1.Object`
fallthrough of the Go switch is unreachable here. -/
def Identify (o : MetaObject) : Option String :=
  if IsSingleton o then
    some SingletonIdentifier
  else if o.namespaced = some false then
    some (NameIdentifier o.name)
  else if o.nspace.length = 0 ∨ o.name.length = 0 then
    none
  else
    some (NameNamespaceIdentifier o.nspace o.name)

/-- The error kinds of the external Object Store (libgitops
`storage.ErrNotFound`, `storage.ErrAlreadyExists`, plus an opaque bucket for
any other failure, such as `ObjectKeyFor` failing to identify an object). -/
inductive StoreErr where
  | notFound
  | alreadyExists
  | other (msg : String)
deriving DecidableEq, Repr

/-- The error universe a handler operation can return.  `statusErr` is the
structured status error built by `newStatusError`/`newStatusErrorf` with its
HTTP code; `storeRaw` is a store error returned unchanged by the handler;
`hookRaw` is an arbitrary error value produced by a registered hook and
surfaced unchanged (Go hooks return a plain `error`). -/
inductive Err where
  | statusErr (code : Nat) (msg : String)
  | storeRaw (e : StoreErr)
  | hookRaw (msg : String)
deriving DecidableEq, Repr

/-- The Object Store's contents: an association list from keys to objects.
First binding for a key wins, matching a map. -/
def Store := List (ObjectKey × MetaObject)

/-- Lookup in the store. -/
def storeFind (st : Store) (key : ObjectKey) : Option MetaObject :=
  match st with
  | [] => none
  | (k, o) :: rest => if k = key then some o else storeFind rest key

/-- Object Store `get(key)`: the stored object, or `NotFound`. -/
def storeGet (st : Store) (key : ObjectKey) : Except StoreErr MetaObject :=
  match storeFind st key with
  | none => .error .notFound
  | some o => .ok o

/-- Object Store `create(obj)`.  The store resolves the object's key itself
through the identity resolver (the kind key comes from the object's GVK,
which for a decoded body equals the handler's kind); an existing record
makes it fail with `AlreadyExists`, leaving the store unchanged. -/
def storeCreate (kk : KindKey) (st : Store) (o : MetaObject) :
    Except StoreErr Store :=
  match Identify o with
  | none => .error (.other "could not identify object")
  | some id =>
    if (storeFind st ⟨kk, id⟩).isSome then .error .alreadyExists
    else .ok ((⟨kk, id⟩, o) :: st)

/-- Remove every binding of a key. -/
def storeRemove (st : Store) (key : ObjectKey) : Store :=
  match st with
  | [] => []
  | (k, o) :: rest =>
    if k = key then storeRemove rest key else (k, o) :: storeRemove rest key

/-- Object Store `update(obj)`: full replace of an existing record,
`NotFound` when no record exists under the object's key. -/
def storeUpdate (kk : KindKey) (st : Store) (o : MetaObject) :
    Except StoreErr Store :=
  match Identify o with
  | none => .error (.other "could not identify object")
  | some id =>
    if (storeFind st ⟨kk, id⟩).isSome then
      .ok ((⟨kk, id⟩, o) :: storeRemove st ⟨kk, id⟩)
    else .error .notFound

/-- Object Store `delete(key)`: remove the record, `NotFound` when absent. -/
def storeDelete (st : Store) (key : ObjectKey) : Except StoreErr Store :=
  if (storeFind st key).isSome then .ok (storeRemove st key)
  else .error .notFound

/-- Object Store `patch(key, rawPatch)`: merge the raw bytes into the record
stored at `key`, `NotFound` when absent.  The merge itself is the external
store's concern; its result is abstracted by keeping the record, and the
call boundary (key and raw bytes) is recorded by the handler model. -/
def storePatch (st : Store) (key : ObjectKey) (_raw : String) :
    Except StoreErr Store :=
  if (storeFind st key).isSome then .ok st else .error .notFound

/-- A registered hook: `ObjectHookHandler` for POST/PUT hooks (it receives
the decoded object) or, instantiated at a named context, a DELETE hook.
`none` means the hook succeeded, `some e` is the error it returned. -/
def Hook (α : Type) := α → Option Err

/-- Run hooks in registration order, stopping at the first error, as the
loops in `create`/`update`/`delete` do.  Returns the zero-based indices of
the hooks that were invoked, in order, and the first error if any. -/
def runHooks {α : Type} (hooks : List (Hook α)) (x : α) :
    List Nat × Option Err :=
  match hooks with
  | [] => ([], none)
  | h :: rest =>
    match h x with
    | some e => ([0], some e)
    | none =>
      let (tr, r) := runHooks rest x
      (0 :: tr.map (· + 1), r)

/-- Warning message of `resourceHandlerImpl.validateBody` when pruning the
namespace of a non-namespaced object. -/
def pruneWarningMsg : String :=
  "Non-namespaced resources must not have the .metadata.namespace field set. Pruning the field"

/-- Error message for a body/path namespace mismatch.  The Go message
interpolates both namespaces; the claims only depend on the error class, so
the message is kept constant. -/
def nsMismatchMsg : String :=
  "Object namespace in body doesn't match namespace in path"

/-- The tail of `validateBody` (lines 116-121 of resource.go): the
namespace-match check against a namespaced context, then
`meta.ValidateIfPossible`.  `ws` carries warnings already added. -/
def validateFinish (ctxNs : Option String) (obj : MetaObject)
    (ws : List String) : List String × Except String MetaObject :=
  match ctxNs with
  | some ns =>
    if ns ≠ obj.nspace then (ws, .error nsMismatchMsg)
    else
      match ValidateIfPossible obj with
      | some e => (ws, .error e)
      | none => (ws, .ok obj)
  | none =>
    match ValidateIfPossible obj with
    | some e => (ws, .error e)
    | none => (ws, .ok obj)

/-- `resourceHandlerImpl.validateBody`.  `ctxNs` is `some ns` when the
request context is a `NamespacedResourceContext` carrying namespace `ns`.
Returns the warnings added via `rc.Warnf` (response headers, added even when
a later check fails) together with either the validation error or the
possibly-pruned object. -/
def validateBody (gvkr : GroupVersionKindResource) (ctxNs : Option String)
    (obj : MetaObject) : List String × Except String MetaObject :=
  -- Only validate ObjectMeta for non-singletons
  if gvkr.singleton then
    validateFinish ctxNs obj []
  else if obj.name = "" then
    ([], .error "name must be set")
  else if IsNamespaced obj then
    if obj.nspace = "" then
      ([], .error ".metadata.namespace must be set for namespaced object")
    else
      validateFinish ctxNs obj []
  else if obj.nspace ≠ "" then
    -- prune the namespace and warn, then continue
    validateFinish ctxNs { obj with nspace := "" } [pruneWarningMsg]
  else
    validateFinish ctxNs obj []

/-- `resourceHandlerImpl.decodeObject`, after the Codec call: the decode
result comes in as `decoded` (the Codec is external; `.error e` is a decode
failure).  A decode failure is wrapped as a 400 status error, a validation
failure likewise; warnings from validation are carried alongside. -/
def decodeObject (gvkr : GroupVersionKindResource) (ctxNs : Option String)
    (decoded : Except String MetaObject) :
    List String × Except Err MetaObject :=
  match decoded with
  | .error e => ([], .error (.statusErr 400 e))
  | .ok obj =>
    match validateBody gvkr ctxNs obj with
    | (ws, .error e) => (ws, .error (.statusErr 400 e))
    | (ws, .ok obj') => (ws, .ok obj')

/-- Outcome of a handler operation: the response (`.ok (code, body)` where
`body` is `none` for a 204 No Content) or the error returned, the store
after the operation, the indices of hooks that ran, and warning headers. -/
structure OpOut where
  result : Except Err (Nat × Option MetaObject)
  store : Store
  hooksRun : List Nat
  warnings : List String

/-- `resourceHandlerImpl.create`: decode and validate the body, run the
registered POST hooks in order, then Object Store `create`.  `AlreadyExists`
maps to a 400 status error, any other store failure to a 500. -/
def createOp (gvkr : GroupVersionKindResource) (ctxNs : Option String)
    (postHooks : List (Hook MetaObject)) (decoded : Except String MetaObject)
    (st : Store) : OpOut :=
  match decodeObject gvkr ctxNs decoded with
  | (ws, .error e) => ⟨.error e, st, [], ws⟩
  | (ws, .ok obj) =>
    match runHooks postHooks obj with
    | (tr, some e) => ⟨.error e, st, tr, ws⟩
    | (tr, none) =>
      match storeCreate (kindKey gvkr) st obj with
      | .error .alreadyExists =>
        ⟨.error (.statusErr 400 "already exists"), st, tr, ws⟩
      | .error e => ⟨.error (.statusErr 500 (reprStr e)), st, tr, ws⟩
      | .ok st' => ⟨.ok (201, some obj), st', tr, ws⟩

/-- `resourceHandlerImpl.update`: same decode/validate pipeline, PUT hooks,
then Object Store `update`; a store failure is returned unchanged. -/
def updateOp (gvkr : GroupVersionKindResource) (ctxNs : Option String)
    (putHooks : List (Hook MetaObject)) (decoded : Except String MetaObject)
    (st : Store) : OpOut :=
  match decodeObject gvkr ctxNs decoded with
  | (ws, .error e) => ⟨.error e, st, [], ws⟩
  | (ws, .ok obj) =>
    match runHooks putHooks obj with
    | (tr, some e) => ⟨.error e, st, tr, ws⟩
    | (tr, none) =>
      match storeUpdate (kindKey gvkr) st obj with
      | .error e => ⟨.error (.storeRaw e), st, tr, ws⟩
      | .ok st' => ⟨.ok (200, some obj), st', tr, ws⟩

/-- A `NamedResourceContext`: the handler's descriptor, the namespace when
the wrapped context is namespaced, and the `:name` path parameter. -/
structure NamedCtx where
  gvkr : GroupVersionKindResource
  nspace : Option String
  name : String
deriving DecidableEq, Repr

/-- `namedResourceContextImpl.ObjectKey` (part_004 lines 160-168): combine
the context namespace (when present) with the name via the identity
resolver's identifier constructors. -/
def namedObjectKey (nctx : NamedCtx) : ObjectKey :=
  match nctx.nspace with
  | some ns => ⟨kindKey nctx.gvkr, NameNamespaceIdentifier ns nctx.name⟩
  | none => ⟨kindKey nctx.gvkr, NameIdentifier nctx.name⟩

/-- `resourceHandlerImpl.delete`: run the DELETE hooks in order, then Object
Store `delete`; a store failure is returned unchanged, success is 204. -/
def deleteOp (nctx : NamedCtx) (deleteHooks : List (Hook NamedCtx))
    (st : Store) : OpOut :=
  match runHooks deleteHooks nctx with
  | (tr, some e) => ⟨.error e, st, tr, []⟩
  | (tr, none) =>
    match storeDelete st (namedObjectKey nctx) with
    | .error e => ⟨.error (.storeRaw e), st, tr, []⟩
    | .ok st' => ⟨.ok (204, none), st', tr, []⟩

/-- `resourceHandlerImpl.returnFromStorage`: fetch the object at `key`;
`NotFound` maps to a 404 status error, any other store failure is returned
unchanged, success is a 200 with the object. -/
def returnFromStorage (st : Store) (key : ObjectKey) :
    Except Err (Nat × Option MetaObject) :=
  match storeGet st key with
  | .error .notFound => .error (.statusErr 404 "not found")
  | .error e => .error (.storeRaw e)
  | .ok o => .ok (200, some o)

/-- Outcome of a read operation, with the key the store was addressed by. -/
structure GetOut where
  result : Except Err (Nat × Option MetaObject)
  keyUsed : ObjectKey

/-- `resourceHandlerImpl.get`: return the object at the named context's key. -/
def getOp (nctx : NamedCtx) (st : Store) : GetOut :=
  ⟨returnFromStorage st (namedObjectKey nctx), namedObjectKey nctx⟩

/-- `resourceHandlerImpl.getSingleton`: return the object at the singleton
sentinel key of the handler's kind; no name or namespace is consulted. -/
def getSingletonOp (gvkr : GroupVersionKindResource) (st : Store) : GetOut :=
  ⟨returnFromStorage st (SingletonKey (kindKey gvkr)),
    SingletonKey (kindKey gvkr)⟩

/-- A raw patch request body: the bytes read once by `ioutil.ReadAll`
(`raw`) together with the sequence of partial-object frames those bytes
decode to (`frames`) — the Codec view of the same bytes. -/
structure PatchBody where
  raw : String
  frames : List MetaObject
deriving DecidableEq, Repr

/-- Modelled from the spec: libgitops `storage.DecodePartialObjects` with
`allowMultiple=false` is external to this repository; per the spec it
"must yield exactly one object — reject bodies that decode to zero or
multiple", and the call site's comment states it guarantees one object on
success.  Decode failures of the frames themselves are likewise errors. -/
def DecodePartialObjects (frames : List MetaObject) :
    Except String MetaObject :=
  match frames with
  | [x] => .ok x
  | [] => .error "no objects decoded"
  | _ => .error "multiple objects decoded"

/-- `customPartialObject`: wrap a decoded partial object so that
`IsNamespaced`/`IsSingleton` report the handler's static flags, overriding
anything the payload reports about itself. -/
def customPartialObject (p : MetaObject) (namespaced singleton : Bool) :
    MetaObject :=
  { p with namespaced := some namespaced, singleton := some singleton }

/-- Outcome of `patch`: the response or error, the store afterwards, and
the arguments of the Object Store `patch` call when one was made. -/
structure PatchOut where
  result : Except Err (Nat × Option MetaObject)
  store : Store
  patchCall : Option (ObjectKey × String)

/-- `resourceHandlerImpl.patch`: decode the raw body only as a partial
object (a failure is a 400 and the store is never called); wrap it with the
handler's namespaced/singleton flags; resolve the object key through the
identity resolver (`ObjectKeyFor`, whose failure is returned unchanged);
forward the raw bytes and the key to Object Store `patch`; then re-read and
return the patched object. -/
def patchOp (gvkr : GroupVersionKindResource) (body : PatchBody)
    (st : Store) : PatchOut :=
  match DecodePartialObjects body.frames with
  | .error e =>
    ⟨.error (.statusErr 400 ("couldn't decode patch: " ++ e)), st, none⟩
  | .ok p =>
    match Identify (customPartialObject p gvkr.namespaced gvkr.singleton) with
    | none => ⟨.error (.storeRaw (.other "could not identify object")), st, none⟩
    | some id =>
      match storePatch st ⟨kindKey gvkr, id⟩ body.raw with
      | .error e =>
        ⟨.error (.storeRaw e), st, some (⟨kindKey gvkr, id⟩, body.raw)⟩
      | .ok st' =>
        ⟨returnFromStorage st' ⟨kindKey gvkr, id⟩, st',
          some (⟨kindKey gvkr, id⟩, body.raw)⟩

/-- HTTP methods used by the route table. -/
inductive Method where
  | GET
  | POST
  | PUT
  | PATCH
  | DELETE
deriving DecidableEq, Repr

/-- Which handler method a route dispatches to. -/
inductive HandlerTag where
  | list
  | create
  | patch
  | update
  | get
  | getSingleton
  | delete
deriving DecidableEq, Repr

/-- One registered route: method, full path pattern, target handler. -/
structure Route where
  method : Method
  path : String
  handler : HandlerTag
deriving DecidableEq, Repr

/-- `nameParamPath` of resource.go. -/
def nameParamPath : String := "/:name/"

/-- `newResourceHandler` (resource.go lines 33-59): the routes registered
for one kind, in registration order, with paths made absolute relative to
the group-version prefix.  For a namespaced kind the handler group `rh.g`
is rooted at `/namespaces/:namespace<resourcePath>` and an extra
all-namespaces list route is registered on the parent first; otherwise the
group is rooted at `<resourcePath>`. -/
def newResourceHandlerRoutes (gvkr : GroupVersionKindResource) : List Route :=
  let resourcePath := "/" ++ gvkr.resource
  let pre : List Route :=
    if gvkr.namespaced then [⟨.GET, resourcePath ++ "/", .list⟩] else []
  let base : String :=
    if gvkr.namespaced then "/namespaces/:namespace" ++ resourcePath
    else resourcePath
  pre ++
    [⟨.POST, base ++ "/", .create⟩,
     ⟨.PATCH, base ++ "/", .patch⟩,
     ⟨.PUT, base ++ "/", .update⟩] ++
    (if gvkr.singleton then
      [⟨.GET, base ++ "/", .getSingleton⟩]
    else
      [⟨.GET, base ++ "/", .list⟩,
       ⟨.GET, base ++ nameParamPath, .get⟩,
       ⟨.DELETE, base ++ nameParamPath, .delete⟩])

/-- Is a handler result a BadRequest-class structured status error? -/
def isBadRequest : Except Err (Nat × Option MetaObject) → Bool
  | .error (.statusErr 400 _) => true
  | _ => false

/-! Helper lemmas shared by the claim theorems. -/

theorem stringAppendCancelRight {a b c : String} (h : a ++ c = b ++ c) :
    a = b := by
  have hd : a.data ++ c.data = b.data ++ c.data := by
    have := congrArg String.data h
    simpa [String.data_append] using this
  exact String.ext (List.append_cancel_right hd)

theorem stringAppendCancelLeft {a b c : String} (h : a ++ b = a ++ c) :
    b = c := by
  have hd : a.data ++ b.data = a.data ++ c.data := by
    have := congrArg String.data h
    simpa [String.data_append] using this
  exact String.ext (List.append_cancel_left hd)

theorem rangeSuccShift (n : Nat) :
    0 :: (List.range n).map (fun x => x + 1) = List.range (n + 1) := by
  have h : (fun x : Nat => x + 1) = Nat.succ := funext fun _ => rfl
  rw [h, ← List.range_succ_eq_map]

theorem runHooksFirstError {α : Type} (hooks : List (Hook α)) (x : α) :
    ∀ (i : Nat) (h : Hook α) (e : Err), hooks.get? i = some h →
    h x = some e →
    (∀ j hj, j < i → hooks.get? j = some hj → hj x = none) →
    runHooks hooks x = (List.range (i + 1), some e) := by
  induction hooks with
  | nil => intro i h e hget; simp at hget
  | cons h0 rest ih =>
    intro i h e hget hx hprev
    match i with
    | 0 =>
      simp at hget
      subst hget
      simp [runHooks, hx, List.range]
      rfl
    | i' + 1 =>
      have h0none : h0 x = none := hprev 0 h0 (Nat.succ_pos i') rfl
      have hrec := ih i' h e (by simpa using hget) hx
        (fun j hj hlt hgj => hprev (j + 1) hj (Nat.succ_lt_succ hlt)
          (by simpa using hgj))
      simp only [runHooks, h0none, hrec]
      rw [rangeSuccShift]

theorem runHooksAllPass {α : Type} (hooks : List (Hook α)) (x : α) :
    (∀ j hj, hooks.get? j = some hj → hj x = none) →
    runHooks hooks x = (List.range hooks.length, none) := by
  induction hooks with
  | nil => intro _; rfl
  | cons h0 rest ih =>
    intro hall
    have h0none : h0 x = none := hall 0 h0 rfl
    have hrec := ih (fun j hj hgj => hall (j + 1) hj (by simpa using hgj))
    simp only [runHooks, h0none, hrec, List.length_cons]
    rw [rangeSuccShift]

/-! The claim theorems. -/

/-- C1, counterexample: the dash-joined identifier is not reversible.  Two
distinct (namespace, name) pairs — both components non-empty — collide, and
a namespaced identifier equals the cluster-scoped identifier of a name that
contains a dash. -/
theorem identifier_collision_counterexample :
    NameNamespaceIdentifier "a" "b-c" = NameNamespaceIdentifier "a-b" "c"
    ∧ (("a" : String), ("b-c" : String)) ≠ (("a-b" : String), ("c" : String))
    ∧ NameNamespaceIdentifier "a" "b" = NameIdentifier "a-b" := by
  refine ⟨rfl, by decide, rfl⟩

/-- C1, amended: the identifier map is deterministic, and it separates the
namespace and the name individually — for a fixed name, distinct namespaces
give distinct identifiers, and for a fixed namespace, distinct names give
distinct identifiers.  (Full reversibility of the pair fails, and collision
with cluster-scoped identifiers is possible, per the counterexample.) -/
theorem identifier_separates_components (ns ns2 n n2 : String) :
    NameNamespaceIdentifier ns n = NameNamespaceIdentifier ns n
    ∧ (ns ≠ ns2 →
        NameNamespaceIdentifier ns n ≠ NameNamespaceIdentifier ns2 n)
    ∧ (n ≠ n2 →
        NameNamespaceIdentifier ns n ≠ NameNamespaceIdentifier ns n2) := by
  refine ⟨rfl, ?_, ?_⟩
  · intro hne heq
    have h1 : (ns ++ "-") ++ n = (ns2 ++ "-") ++ n := heq
    exact hne (stringAppendCancelRight (stringAppendCancelRight h1))
  · intro hne heq
    exact hne (stringAppendCancelLeft (a := ns ++ "-") heq)

/-- C1, witness for the amended theorem at concrete inputs. -/
theorem identifier_separates_components_witness :
    NameNamespaceIdentifier "ns1" "x" ≠ NameNamespaceIdentifier "ns2" "x"
    ∧ NameNamespaceIdentifier "ns1" "x" ≠ NameNamespaceIdentifier "ns1" "y" := by
  have h := identifier_separates_components "ns1" "ns2" "x" "y"
  exact ⟨h.2.1 (by decide), h.2.2 (by decide)⟩

/-- C2, counterexample: the route table of the claim is wrong on the code.
A singleton kind also gets a POST route (the claim allows only GET and
PATCH), and a namespaced kind has no POST route at `/resource/` (its write
routes live under `/namespaces/:namespace/resource/`). -/
theorem routes_counterexample :
    (⟨Method.POST, "/settings/", HandlerTag.create⟩ ∈
      newResourceHandlerRoutes ⟨"g", "v", "Settings", "settings", false, true⟩)
    ∧ (⟨Method.POST, "/widgets/", HandlerTag.create⟩ ∉
      newResourceHandlerRoutes ⟨"g", "v", "Widget", "widgets", true, false⟩) := by
  decide

/-- C2, amended: the exact route table per kind shape.  POST, PATCH and PUT
are registered for every kind on its base group; for a namespaced kind the
base group is `/namespaces/:namespace/resource` and an all-namespaces list
route is registered at `/resource/` first; a singleton kind gets a GET to
`getSingleton` on its base group and neither name routes nor a list route;
a non-singleton kind gets a list GET on its base group plus GET and DELETE
on `/:name/`. -/
theorem routes_table (g v k r : String) :
    newResourceHandlerRoutes ⟨g, v, k, r, false, false⟩ =
      [⟨.POST, "/" ++ r ++ "/", .create⟩,
       ⟨.PATCH, "/" ++ r ++ "/", .patch⟩,
       ⟨.PUT, "/" ++ r ++ "/", .update⟩,
       ⟨.GET, "/" ++ r ++ "/", .list⟩,
       ⟨.GET, "/" ++ r ++ "/:name/", .get⟩,
       ⟨.DELETE, "/" ++ r ++ "/:name/", .delete⟩]
    ∧ newResourceHandlerRoutes ⟨g, v, k, r, true, false⟩ =
      [⟨.GET, "/" ++ r ++ "/", .list⟩,
       ⟨.POST, "/namespaces/:namespace" ++ ("/" ++ r) ++ "/", .create⟩,
       ⟨.PATCH, "/namespaces/:namespace" ++ ("/" ++ r) ++ "/", .patch⟩,
       ⟨.PUT, "/namespaces/:namespace" ++ ("/" ++ r) ++ "/", .update⟩,
       ⟨.GET, "/namespaces/:namespace" ++ ("/" ++ r) ++ "/", .list⟩,
       ⟨.GET, "/namespaces/:namespace" ++ ("/" ++ r) ++ "/:name/", .get⟩,
       ⟨.DELETE, "/namespaces/:namespace" ++ ("/" ++ r) ++ "/:name/", .delete⟩]
    ∧ newResourceHandlerRoutes ⟨g, v, k, r, false, true⟩ =
      [⟨.POST, "/" ++ r ++ "/", .create⟩,
       ⟨.PATCH, "/" ++ r ++ "/", .patch⟩,
       ⟨.PUT, "/" ++ r ++ "/", .update⟩,
       ⟨.GET, "/" ++ r ++ "/", .getSingleton⟩]
    ∧ newResourceHandlerRoutes ⟨g, v, k, r, true, true⟩ =
      [⟨.GET, "/" ++ r ++ "/", .list⟩,
       ⟨.POST, "/namespaces/:namespace" ++ ("/" ++ r) ++ "/", .create⟩,
       ⟨.PATCH, "/namespaces/:namespace" ++ ("/" ++ r) ++ "/", .patch⟩,
       ⟨.PUT, "/namespaces/:namespace" ++ ("/" ++ r) ++ "/", .update⟩,
       ⟨.GET, "/namespaces/:namespace" ++ ("/" ++ r) ++ "/", .getSingleton⟩] := by
  refine ⟨rfl, rfl, rfl, rfl⟩

/-- C3: for a singleton object the identity resolver returns the constant
sentinel identifier no matter what name or namespace the object carries,
and `getSingleton` addresses the store with exactly the sentinel key of the
handler's kind. -/
theorem singleton_identity (o : MetaObject)
    (gvkr : GroupVersionKindResource) (st : Store)
    (h : IsSingleton o = true) :
    Identify o = some SingletonIdentifier
    ∧ (getSingletonOp gvkr st).keyUsed = SingletonKey (kindKey gvkr)
    ∧ SingletonKey (kindKey gvkr) = ⟨kindKey gvkr, "singleton"⟩ := by
  refine ⟨?_, rfl, rfl⟩
  simp [Identify, h]

/-- C3, witness: a singleton object carrying an arbitrary name and
namespace still resolves to the sentinel, and `getSingleton` on an empty
store reads the sentinel key. -/
theorem singleton_identity_witness :
    Identify ⟨"weird-name", "some-ns", some true, some true, none⟩ =
      some SingletonIdentifier
    ∧ (getSingletonOp ⟨"g", "v", "Settings", "settings", false, true⟩ []).keyUsed
      = SingletonKey (kindKey ⟨"g", "v", "Settings", "settings", false, true⟩) := by
  have h := singleton_identity ⟨"weird-name", "some-ns", some true, some true, none⟩
    ⟨"g", "v", "Settings", "settings", false, true⟩ [] (by decide)
  exact ⟨h.1, h.2.1⟩

/-- C4: for create, update and delete, hooks run strictly in registration
order; the first hook error aborts the operation with that error surfaced
unchanged, later hooks do not run (the executed indices are exactly
`0..i`), and the store is left untouched; when every hook passes, all hooks
have run before the store call. -/
theorem hooks_order_abort (gvkr : GroupVersionKindResource)
    (ctxNs : Option String) (nctx : NamedCtx)
    (hooks : List (Hook MetaObject)) (dhooks : List (Hook NamedCtx))
    (decoded : Except String MetaObject) (st : Store)
    (ws : List String) (obj : MetaObject) (i : Nat) (e : Err) :
    (∀ h, hooks.get? i = some h → h obj = some e →
      (∀ j hj, j < i → hooks.get? j = some hj → hj obj = none) →
      runHooks hooks obj = (List.range (i + 1), some e))
    ∧ (decodeObject gvkr ctxNs decoded = (ws, .ok obj) →
       runHooks hooks obj = (List.range (i + 1), some e) →
       createOp gvkr ctxNs hooks decoded st =
         ⟨.error e, st, List.range (i + 1), ws⟩
       ∧ updateOp gvkr ctxNs hooks decoded st =
         ⟨.error e, st, List.range (i + 1), ws⟩)
    ∧ (runHooks dhooks nctx = (List.range (i + 1), some e) →
       deleteOp nctx dhooks st = ⟨.error e, st, List.range (i + 1), []⟩)
    ∧ (decodeObject gvkr ctxNs decoded = (ws, .ok obj) →
       runHooks hooks obj = (List.range hooks.length, none) →
       (createOp gvkr ctxNs hooks decoded st).hooksRun = List.range hooks.length
       ∧ (updateOp gvkr ctxNs hooks decoded st).hooksRun
         = List.range hooks.length) := by
  refine ⟨fun h => runHooksFirstError hooks obj i h e, ?_, ?_, ?_⟩
  · intro hd hr
    constructor
    · simp [createOp, hd, hr]
    · simp [updateOp, hd, hr]
  · intro hr
    simp [deleteOp, hr]
  · intro hd hr
    constructor
    · simp only [createOp, hd, hr]
      cases storeCreate (kindKey gvkr) st obj with
      | error err => cases err <;> rfl
      | ok st' => rfl
    · simp only [updateOp, hd, hr]
      cases storeUpdate (kindKey gvkr) st obj with
      | error err => rfl
      | ok st' => rfl

/-- Fixture: a cluster-scoped, non-singleton kind. -/
def gvkrCluster : GroupVersionKindResource :=
  ⟨"digitized.luxaslabs.com", "v1alpha1", "Cassette", "cassettes", false, false⟩

/-- Fixture: a namespaced, non-singleton kind. -/
def gvkrNamespaced : GroupVersionKindResource :=
  ⟨"digitized.luxaslabs.com", "v1alpha1", "Recorder", "recorders", true, false⟩

/-- Fixture: a cluster-scoped object body that passes validation. -/
def demoObj : MetaObject := ⟨"a", "", none, some false, none⟩

/-- Fixture: a hook that succeeds. -/
def demoHookOk : Hook MetaObject := fun _ => none

/-- Fixture: a hook that fails with a domain error. -/
def demoHookFail : Hook MetaObject := fun _ => some (.hookRaw "boom")

/-- Fixture: a hook after the failing one; it must never run. -/
def demoHookLater : Hook MetaObject := fun _ => some (.hookRaw "later")

/-- Fixture: a hook list whose second entry fails. -/
def demoHooks : List (Hook MetaObject) :=
  [demoHookOk, demoHookFail, demoHookLater]

/-- Fixture: a named context for the cluster-scoped kind. -/
def demoNctx : NamedCtx := ⟨gvkrCluster, none, "a"⟩

/-- Fixture: a delete hook that fails. -/
def demoDelHookFail : Hook NamedCtx := fun _ => some (.hookRaw "boom")

/-- C4, witness: with three registered hooks of which the second fails,
create aborts with exactly that error, exactly hooks 0 and 1 ran, the store
stays empty; delete behaves the same way. -/
theorem hooks_order_abort_witness :
    createOp gvkrCluster none demoHooks (.ok demoObj) [] =
      ⟨.error (.hookRaw "boom"), [], List.range 2, []⟩
    ∧ deleteOp demoNctx [demoDelHookFail] [] =
      ⟨.error (.hookRaw "boom"), [], List.range 1, []⟩ := by
  have h := hooks_order_abort gvkrCluster none demoNctx demoHooks
    [demoDelHookFail] (.ok demoObj) [] [] demoObj 1 (.hookRaw "boom")
  have hrun : runHooks demoHooks demoObj = (List.range 2, some (.hookRaw "boom")) :=
    h.1 demoHookFail rfl rfl (by
      intro j hj hlt hget
      have hj0 : j = 0 := by omega
      subst hj0
      simp [demoHooks] at hget
      rw [← hget]
      rfl)
  have h0 := hooks_order_abort gvkrCluster none demoNctx demoHooks
    [demoDelHookFail] (.ok demoObj) [] [] demoObj 0 (.hookRaw "boom")
  have hdel : runHooks [demoDelHookFail] demoNctx =
      (List.range 1, some (.hookRaw "boom")) := rfl
  exact ⟨(h.2.1 rfl hrun).1, h0.2.2.1 hdel⟩

/-- C5: creating an object whose key is already bound in the store returns
the 400 structured status error derived from the store's `AlreadyExists`
(within the conflict class 409/400 the claim allows), and the record
already stored under that key is unchanged. -/
theorem create_conflict (gvkr : GroupVersionKindResource)
    (ctxNs : Option String) (hooks : List (Hook MetaObject))
    (decoded : Except String MetaObject) (st : Store) (ws : List String)
    (obj rec : MetaObject) (tr : List Nat) (k : String)
    (hd : decodeObject gvkr ctxNs decoded = (ws, .ok obj))
    (hr : runHooks hooks obj = (tr, none))
    (hk : Identify obj = some k)
    (hex : storeFind st ⟨kindKey gvkr, k⟩ = some rec) :
    createOp gvkr ctxNs hooks decoded st =
      ⟨.error (.statusErr 400 "already exists"), st, tr, ws⟩
    ∧ storeFind (createOp gvkr ctxNs hooks decoded st).store
        ⟨kindKey gvkr, k⟩ = some rec := by
  have hc : storeCreate (kindKey gvkr) st obj = .error .alreadyExists := by
    simp [storeCreate, hk, hex]
  have hres : createOp gvkr ctxNs hooks decoded st =
      ⟨.error (.statusErr 400 "already exists"), st, tr, ws⟩ := by
    simp [createOp, hd, hr, hc]
  exact ⟨hres, by rw [hres]; exact hex⟩

/-- Fixture: a record already stored under the key of `demoObj`. -/
def demoStored : Store := [(⟨kindKey gvkrCluster, "a"⟩, demoObj)]

/-- C5, witness: creating `demoObj` again over `demoStored` yields the 400
already-exists status error and leaves the stored record in place. -/
theorem create_conflict_witness :
    createOp gvkrCluster none [] (.ok demoObj) demoStored =
      ⟨.error (.statusErr 400 "already exists"), demoStored, List.range 0, []⟩
    ∧ storeFind (createOp gvkrCluster none [] (.ok demoObj) demoStored).store
        ⟨kindKey gvkrCluster, "a"⟩ = some demoObj :=
  create_conflict gvkrCluster none [] (.ok demoObj) demoStored []
    demoObj demoObj (List.range 0) "a" rfl rfl rfl rfl

/-- C6: a patch body whose frames decode to zero objects or to more than
one object makes the operation fail with a BadRequest-class status error;
the Object Store's `patch` is never invoked and the store is unchanged. -/
theorem patch_decode_guard (gvkr : GroupVersionKindResource)
    (body : PatchBody) (st : Store)
    (h : body.frames.length ≠ 1) :
    isBadRequest (patchOp gvkr body st).result = true
    ∧ (patchOp gvkr body st).patchCall = none
    ∧ (patchOp gvkr body st).store = st := by
  have hdec : ∃ m, DecodePartialObjects body.frames = .error m := by
    match hf : body.frames with
    | [] => exact ⟨"no objects decoded", rfl⟩
    | [x] => rw [hf] at h; simp at h
    | x :: y :: rest => exact ⟨"multiple objects decoded", rfl⟩
  obtain ⟨m, hm⟩ := hdec
  refine ⟨?_, ?_, ?_⟩ <;> simp [patchOp, hm, isBadRequest]

/-- C6, witness: an empty patch body and a two-object patch body are both
rejected with a 400 and no store patch call. -/
theorem patch_decode_guard_witness :
    (isBadRequest (patchOp gvkrCluster ⟨"RAW", []⟩ []).result = true
      ∧ (patchOp gvkrCluster ⟨"RAW", []⟩ []).patchCall = none)
    ∧ (isBadRequest
        (patchOp gvkrCluster ⟨"RAW", [demoObj, demoObj]⟩ []).result = true
      ∧ (patchOp gvkrCluster ⟨"RAW", [demoObj, demoObj]⟩ []).patchCall = none) := by
  have h0 := patch_decode_guard gvkrCluster ⟨"RAW", []⟩ [] (by decide)
  have h2 := patch_decode_guard gvkrCluster ⟨"RAW", [demoObj, demoObj]⟩ []
    (by decide)
  exact ⟨⟨h0.1, h0.2.1⟩, ⟨h2.1, h2.2.1⟩⟩

/-- C7: the object key a patch is stored under combines the partial
object's name and namespace with the handler's own static namespaced and
singleton flags.  Any namespaced/singleton information the payload reports
about itself is irrelevant (two partial objects equal up to those flags
produce the same store call), and when the store's `patch` is invoked it
receives exactly the raw bytes that were read from the body. -/
theorem patch_key_from_handler_flags (gvkr : GroupVersionKindResource)
    (raw : String) (p q : MetaObject) (st : Store)
    (hname : p.name = q.name) (hns : p.nspace = q.nspace) :
    (patchOp gvkr ⟨raw, [p]⟩ st).patchCall =
      (patchOp gvkr ⟨raw, [q]⟩ st).patchCall
    ∧ (∀ key payload,
        (patchOp gvkr ⟨raw, [p]⟩ st).patchCall = some (key, payload) →
        payload = raw
        ∧ key = ⟨kindKey gvkr,
            if gvkr.singleton then SingletonIdentifier
            else if gvkr.namespaced then
              NameNamespaceIdentifier p.nspace p.name
            else NameIdentifier p.name⟩) := by
  have hident : ∀ r : MetaObject, r.name = p.name → r.nspace = p.nspace →
      Identify (customPartialObject r gvkr.namespaced gvkr.singleton) =
      (if gvkr.singleton then some SingletonIdentifier
       else if gvkr.namespaced then
         (if p.nspace.length = 0 ∨ p.name.length = 0 then none
          else some (NameNamespaceIdentifier p.nspace p.name))
       else some (NameIdentifier p.name)) := by
    intro r hrn hrs
    cases hsg : gvkr.singleton <;> cases hnsd : gvkr.namespaced <;>
      simp [Identify, customPartialObject, IsSingleton, hrn, hrs,
        NameIdentifier]
  constructor
  · have hp := hident p rfl rfl
    have hq := hident q hname.symm hns.symm
    simp only [patchOp, DecodePartialObjects]
    rw [hp, hq]
  · intro key payload hcall
    simp only [patchOp, DecodePartialObjects] at hcall
    rw [hident p rfl rfl] at hcall
    by_cases hsg : gvkr.singleton
    · simp only [hsg, if_pos] at hcall
      cases hsp : storePatch st ⟨kindKey gvkr, SingletonIdentifier⟩ raw <;>
        simp [hsp, hsg] at hcall ⊢ <;> exact ⟨hcall.2.symm, hcall.1.symm⟩
    · by_cases hnsd : gvkr.namespaced
      · by_cases hemp : p.nspace.length = 0 ∨ p.name.length = 0
        · simp [hsg, hnsd, hemp] at hcall
        · simp only [hsg, hnsd, hemp, if_neg, if_pos, ite_false,
            ite_true] at hcall
          cases hsp : storePatch st
              ⟨kindKey gvkr, NameNamespaceIdentifier p.nspace p.name⟩ raw <;>
            simp [hsp, hsg, hnsd] at hcall ⊢ <;>
            exact ⟨hcall.2.symm, hcall.1.symm⟩
      · simp only [hsg, hnsd, ite_false] at hcall
        cases hsp : storePatch st ⟨kindKey gvkr, NameIdentifier p.name⟩ raw <;>
          simp [hsp, hsg, hnsd] at hcall ⊢ <;>
          exact ⟨hcall.2.symm, hcall.1.symm⟩

/-- Fixture: a partial patch object that reports itself cluster-scoped and
singleton. -/
def demoPartialSelfish : MetaObject :=
  ⟨"a", "ns1", some true, some false, none⟩

/-- Fixture: the same partial identity with no self-reported flags. -/
def demoPartialPlain : MetaObject := ⟨"a", "ns1", none, none, none⟩

/-- C7, witness: on a namespaced handler the self-reported flags of the
payload do not change the store call, and the call carries the dash-joined
namespaced key with the raw bytes untouched. -/
theorem patch_key_from_handler_flags_witness :
    (patchOp gvkrNamespaced ⟨"RAW", [demoPartialSelfish]⟩ []).patchCall =
      (patchOp gvkrNamespaced ⟨"RAW", [demoPartialPlain]⟩ []).patchCall
    ∧ ("RAW" : String) = "RAW"
    ∧ (⟨kindKey gvkrNamespaced, "ns1-a"⟩ : ObjectKey) =
      ⟨kindKey gvkrNamespaced,
        if gvkrNamespaced.singleton then SingletonIdentifier
        else if gvkrNamespaced.namespaced then
          NameNamespaceIdentifier demoPartialSelfish.nspace
            demoPartialSelfish.name
        else NameIdentifier demoPartialSelfish.name⟩ := by
  have h := patch_key_from_handler_flags gvkrNamespaced "RAW"
    demoPartialSelfish demoPartialPlain [] rfl rfl
  have hcall := h.2 ⟨kindKey gvkrNamespaced, "ns1-a"⟩ "RAW" rfl
  exact ⟨h.1, hcall.1.symm ▸ rfl, hcall.2⟩

/-- C8: body validation on create/update.  For a non-singleton kind an
empty name is a hard 400; a namespaced object with an empty namespace is a
hard 400; a non-namespaced object carrying a populated namespace is not
rejected: the namespace is pruned to empty, the caller-visible warning is
recorded, and the operation proceeds with the pruned object. -/
theorem body_validation (gvkr : GroupVersionKindResource)
    (ctxNs : Option String) (obj : MetaObject)
    (hsing : gvkr.singleton = false) :
    (obj.name = "" →
      decodeObject gvkr ctxNs (.ok obj) =
        ([], .error (.statusErr 400 "name must be set")))
    ∧ (obj.name ≠ "" → IsNamespaced obj = true → obj.nspace = "" →
      decodeObject gvkr ctxNs (.ok obj) =
        ([], .error (.statusErr 400
          ".metadata.namespace must be set for namespaced object")))
    ∧ (obj.name ≠ "" → IsNamespaced obj = false → obj.nspace ≠ "" →
      ctxNs = none → obj.validateErr = none →
      decodeObject gvkr ctxNs (.ok obj) =
        ([pruneWarningMsg], .ok { obj with nspace := "" })) := by
  refine ⟨?_, ?_, ?_⟩
  · intro hn
    simp [decodeObject, validateBody, hsing, hn]
  · intro hn hnsd hns
    simp [decodeObject, validateBody, hsing, hn, hnsd, hns]
  · intro hn hnsd hns hctx hv
    subst hctx
    simp [decodeObject, validateBody, hsing, hn, hnsd, hns,
      validateFinish, ValidateIfPossible, hv]

/-- Fixture: a non-namespaced object carrying a stray namespace. -/
def demoStrayNs : MetaObject := ⟨"a", "foo", none, some false, none⟩

/-- Fixture: a namespaced object with its namespace missing. -/
def demoMissingNs : MetaObject := ⟨"a", "", none, some true, none⟩

/-- Fixture: an object with no name. -/
def demoNoName : MetaObject := ⟨"", "", none, some false, none⟩

/-- C8, witness: the three validation behaviors at concrete objects on the
cluster-scoped fixture kind. -/
theorem body_validation_witness :
    decodeObject gvkrCluster none (.ok demoNoName) =
      ([], .error (.statusErr 400 "name must be set"))
    ∧ decodeObject gvkrCluster none (.ok demoMissingNs) =
      ([], .error (.statusErr 400
        ".metadata.namespace must be set for namespaced object"))
    ∧ decodeObject gvkrCluster none (.ok demoStrayNs) =
      ([pruneWarningMsg], .ok { demoStrayNs with nspace := "" }) := by
  refine ⟨?_, ?_, ?_⟩
  · exact (body_validation gvkrCluster none demoNoName rfl).1 rfl
  · exact (body_validation gvkrCluster none demoMissingNs rfl).2.1
      (by decide) rfl rfl
  · exact (body_validation gvkrCluster none demoStrayNs rfl).2.2
      (by decide) rfl (by decide) rfl rfl

/-- C9: `get` and `getSingleton` return the object stored under the
resolved key with a 200, and map a store `NotFound` to a 404 structured
status error. -/
theorem get_and_notfound (nctx : NamedCtx)
    (gvkr : GroupVersionKindResource) (st : Store) (o : MetaObject) :
    (storeGet st (namedObjectKey nctx) = .ok o →
      (getOp nctx st).result = .ok (200, some o))
    ∧ (storeGet st (namedObjectKey nctx) = .error .notFound →
      (getOp nctx st).result = .error (.statusErr 404 "not found"))
    ∧ (storeGet st (SingletonKey (kindKey gvkr)) = .ok o →
      (getSingletonOp gvkr st).result = .ok (200, some o))
    ∧ (storeGet st (SingletonKey (kindKey gvkr)) = .error .notFound →
      (getSingletonOp gvkr st).result = .error (.statusErr 404 "not found")) := by
  refine ⟨fun h => ?_, fun h => ?_, fun h => ?_, fun h => ?_⟩ <;>
    simp [getOp, getSingletonOp, returnFromStorage, h]

/-- C9, witness: a store holding only `demoObj` under its cluster key
serves `get` for it with a 200 and answers 404 for a missing name and for
the singleton sentinel. -/
theorem get_and_notfound_witness :
    (getOp demoNctx demoStored).result = .ok (200, some demoObj)
    ∧ (getOp ⟨gvkrCluster, none, "missing"⟩ demoStored).result =
      .error (.statusErr 404 "not found")
    ∧ (getSingletonOp gvkrCluster demoStored).result =
      .error (.statusErr 404 "not found") := by
  refine ⟨?_, ?_, ?_⟩
  · exact (get_and_notfound demoNctx gvkrCluster demoStored demoObj).1 rfl
  · exact (get_and_notfound ⟨gvkrCluster, none, "missing"⟩ gvkrCluster
      demoStored demoObj).2.1 rfl
  · exact (get_and_notfound demoNctx gvkrCluster demoStored demoObj).2.2.2 rfl

/-- C10: on a namespaced route, a body whose namespace differs from the
`:namespace` path parameter is rejected with a 400 status error before any
hook runs and before any store write, for both create and update. -/
theorem body_path_namespace_mismatch (gvkr : GroupVersionKindResource)
    (ns : String) (hooks : List (Hook MetaObject)) (obj : MetaObject)
    (st : Store)
    (hsing : gvkr.singleton = false)
    (hname : obj.name ≠ "")
    (hnsd : IsNamespaced obj = true)
    (hne : obj.nspace ≠ "")
    (hmm : ns ≠ obj.nspace) :
    createOp gvkr (some ns) hooks (.ok obj) st =
      ⟨.error (.statusErr 400 nsMismatchMsg), st, [], []⟩
    ∧ updateOp gvkr (some ns) hooks (.ok obj) st =
      ⟨.error (.statusErr 400 nsMismatchMsg), st, [], []⟩ := by
  have hd : decodeObject gvkr (some ns) (.ok obj) =
      ([], .error (.statusErr 400 nsMismatchMsg)) := by
    simp [decodeObject, validateBody, hsing, hname, hnsd, hne,
      validateFinish, hmm]
  exact ⟨by simp [createOp, hd], by simp [updateOp, hd]⟩

/-- Fixture: a namespaced object whose body namespace is `ns1`. -/
def demoNsObj : MetaObject := ⟨"a", "ns1", none, some true, none⟩

/-- C10, witness: posting `demoNsObj` through the `ns2` route aborts with
the 400 mismatch error, runs no hook, and writes nothing. -/
theorem body_path_namespace_mismatch_witness :
    createOp gvkrNamespaced (some "ns2") demoHooks (.ok demoNsObj) [] =
      ⟨.error (.statusErr 400 nsMismatchMsg), [], [], []⟩
    ∧ updateOp gvkrNamespaced (some "ns2") demoHooks (.ok demoNsObj) [] =
      ⟨.error (.statusErr 400 nsMismatchMsg), [], [], []⟩ :=
  body_path_namespace_mismatch gvkrNamespaced "ns2" demoHooks demoNsObj []
    rfl (by decide) rfl (by decide) (by decide)

end Digitized
